import Mathlib

/-!
Shallow embedding of `src/chardev/linux/chardev.c`: a single exclusive-access
character device with a fixed 1024-byte message buffer.

Modelled state (the module-level statics of the C file):
  * `g_message`      : the 1024-byte kernel buffer (`static char g_message[1024]`),
                       as a list of byte values;
  * `g_message_size` : `static size_t g_message_size` (value of a 64-bit size_t);
  * `locked`         : whether `mutex_chardev` is currently held;
  * `g_number_open`  : `static size_t g_number_open`.

The four file operations `chardev_open`, `chardev_release`, `chardev_read`,
`chardev_write` are translated as pure state transformers.  The user-space
copy boundary (`copy_to_user` / `copy_from_user`) is modelled by a boolean
oracle `copyOk` saying whether the user memory is accessible; a copy of zero
bytes always succeeds, as in the kernel.  The destination bytes of a faulted
`copy_from_user` are left unmodelled (unchanged here); no theorem below
depends on buffer contents after a faulted copy.

Machine arithmetic: `size_t`, `ssize_t` and `loff_t` are 64-bit.  In the C
source, `g_message_size - *offset` and `len + *offset` are computed after the
usual arithmetic conversions in 64-bit unsigned arithmetic and stored in an
`ssize_t`; the comparisons `len_msg > len` and `len_msg > sizeof(g_message)`
convert the signed `len_msg` back to `size_t` (unsigned comparison), while
`len_msg < 0` is a signed comparison.  This is modelled explicitly with
`wrap64` (value mod 2^64) and `toSigned64` (two's-complement reading).

Error names follow the C error codes; the spec's taxonomy maps to them as
`AlreadyOpen` = `EBUSY`, `InvalidOffset` = `EINVAL`, `TooLarge` = `EFBIG`,
`CopyFault` = `EFAULT`.
-/

/-- 2^64, the modulus of 64-bit machine arithmetic. -/
def W64 : Nat := 18446744073709551616

/-- 2^63, the first value that reads as negative in a 64-bit signed type. -/
def W63 : Nat := 9223372036854775808

/-- The unsigned 64-bit value of an integer: reduction mod 2^64
(the effect of the usual arithmetic conversions to `size_t`). -/
def wrap64 (x : Int) : Nat := (x % (W64 : Int)).toNat

/-- Two's-complement reading of a 64-bit bit pattern as an `ssize_t`. -/
def toSigned64 (n : Nat) : Int := if n < W63 then (n : Int) else (n : Int) - (W64 : Int)

/-- Error codes returned (negated) by the C callbacks. -/
inductive Err where
  | EBUSY
  | EINVAL
  | EFAULT
  | EFBIG
deriving DecidableEq

/-- The module-level static state of chardev.c. -/
structure DevState where
  g_message : List Nat
  g_message_size : Nat
  locked : Bool
  g_number_open : Nat
deriving DecidableEq

/-- Buffer capacity: `sizeof(g_message)` = 1024. -/
def C : Nat := 1024

/-- The state after module initialisation: `static char g_message[1024] = {0}`,
`g_message_size = 0`, mutex free, `g_number_open = 0`. -/
def initDevState : DevState :=
  { g_message := List.replicate 1024 0
    g_message_size := 0
    locked := false
    g_number_open := 0 }

/-- `memcpy` of `data` into `buf` starting at index `off`
(the effect of a successful `copy_from_user(g_message + off, u_buffer, len)`). -/
def storeBytes (buf : List Nat) (off : Nat) (data : List Nat) : List Nat :=
  buf.take off ++ data ++ buf.drop (off + data.length)

/-- `chardev_open`: `mutex_trylock` fails iff the mutex is already held, in
which case the call returns `-EBUSY` and changes nothing; otherwise the lock
is taken and `g_number_open++` is performed (a `size_t` increment). -/
def chardev_open (s : DevState) : Except Err Unit × DevState :=
  if s.locked then
    (.error .EBUSY, s)
  else
    (.ok (), { s with locked := true, g_number_open := (s.g_number_open + 1) % W64 })

/-- `chardev_release`: `g_number_open--` (a `size_t` decrement, modelled as
adding 2^64 - 1 mod 2^64) and `mutex_unlock`; always returns 0. -/
def chardev_release (s : DevState) : Except Err Unit × DevState :=
  (.ok (), { s with g_number_open := (s.g_number_open + (W64 - 1)) % W64, locked := false })

/-- `chardev_read`, returning (result, new `*offset`, state).  The result on
success is the list of bytes copied to user space.

Follows the C control flow: `len_msg = g_message_size - *offset` (64-bit
arithmetic read back as `ssize_t`); if `len_msg == 0` return 0 (EOF);
else if `len_msg > len` — an UNSIGNED comparison, since `ssize_t` is
converted to `size_t` — clamp `len_msg = len`; else if `len_msg < 0`
(signed) return `-EINVAL`; then `copy_to_user(u_buffer, g_message + *offset,
len_msg)`, and on success `*offset += len_msg`. -/
def chardev_read (s : DevState) (len : Nat) (offset : Int) (copyOk : Bool) :
    Except Err (List Nat) × Int × DevState :=
  let len_msg : Int := toSigned64 (wrap64 ((s.g_message_size : Int) - offset))
  if len_msg = 0 then
    (.ok [], offset, s)
  else if ¬ (wrap64 len_msg > len) ∧ len_msg < 0 then
    (.error .EINVAL, offset, s)
  else
    let k : Nat := if wrap64 len_msg > len then len else len_msg.toNat
    if ¬ copyOk ∧ 0 < k then
      (.error .EFAULT, offset, s)
    else
      (.ok ((s.g_message.drop offset.toNat).take k), offset + (k : Int), s)

/-- `chardev_write`, returning (result, new `*offset`, state).

Follows the C control flow: `len_msg = len + *offset` (64-bit arithmetic);
if `len_msg > sizeof(g_message)` — an unsigned comparison — return
`-EFBIG`; `copy_from_user(g_message + *offset, u_buffer, len)`, on failure
set `g_message_size = 0` and return `-EFAULT`; if `*offset == 0` set
`g_message_size = 0`; then `g_message_size += len` (a `size_t` addition) and
`*offset += len`, returning `len`. -/
def chardev_write (s : DevState) (offset : Int) (data : List Nat) (copyOk : Bool) :
    Except Err Nat × Int × DevState :=
  let len : Nat := data.length
  if wrap64 ((len : Int) + offset) > C then
    (.error .EFBIG, offset, s)
  else if ¬ copyOk ∧ 0 < len then
    (.error .EFAULT, offset, { s with g_message_size := 0 })
  else
    (.ok len, offset + (len : Int),
      { s with
        g_message := storeBytes s.g_message offset.toNat data
        g_message_size := ((if offset = 0 then 0 else s.g_message_size) + len) % W64 })

theorem wrap64_coe (n : Nat) : wrap64 (n : Int) = n % W64 := by
  unfold wrap64
  omega

theorem wrap64_small (n : Nat) (h : n < W64) : wrap64 (n : Int) = n := by
  rw [wrap64_coe]
  exact Nat.mod_eq_of_lt h

theorem toSigned64_small (n : Nat) (h : n < W63) : toSigned64 n = (n : Int) := by
  unfold toSigned64
  simp [h]

set_option maxRecDepth 100000 in
/-- C2: the claim states that with `g_message_size = 5` a read at offset 10
(`available = -5 < 0`) fails with `-EINVAL` (`InvalidOffset`).  The code does
not: in `len_msg > len` the `ssize_t` is converted to `size_t`, so the
negative `len_msg` compares as a huge unsigned value and is clamped to
`len`; the `len_msg < 0` branch is unreachable for any `len < 2^63`.  The
call copies one stale byte from `g_message[10]` (here 7), returns it and
advances the offset to 11. -/
theorem chardev_read_beyond_end_clamps_instead_of_EINVAL :
    chardev_read ⟨List.replicate 1024 7, 5, true, 1⟩ 1 10 true =
      (.ok [7], 11, ⟨List.replicate 1024 7, 5, true, 1⟩) := by
  rfl

set_option maxRecDepth 100000 in
/-- C1 counterexample: from the initial state, `write(offset=0, 1000 bytes)`
succeeds (length becomes 1000), then `write(offset=500, 500 bytes)` passes
the capacity check (500 + 500 ≤ 1024) and succeeds, but `g_message_size +=
len` leaves the length at 1500 > 1024 = C. -/
theorem chardev_write_length_can_exceed_capacity :
    (chardev_write initDevState 0 (List.replicate 1000 1) true).1 = .ok 1000 ∧
    (chardev_write (chardev_write initDevState 0 (List.replicate 1000 1) true).2.2
        500 (List.replicate 500 2) true).1 = .ok 500 ∧
    (chardev_write (chardev_write initDevState 0 (List.replicate 1000 1) true).2.2
        500 (List.replicate 500 2) true).2.2.g_message_size = 1500 ∧
    C < (chardev_write (chardev_write initDevState 0 (List.replicate 1000 1) true).2.2
        500 (List.replicate 500 2) true).2.2.g_message_size := by
  refine ⟨rfl, rfl, rfl, ?_⟩
  show C < 1500
  decide

/-- C9 counterexample: `g_number_open` is not monotone.  Opening the fresh
device sets it to 1; the matching `chardev_release` performs
`g_number_open--`, bringing it back to 0 < 1. -/
theorem g_number_open_decreases_on_release :
    (chardev_release (chardev_open initDevState).2).2.g_number_open
      < (chardev_open initDevState).2.g_number_open := by
  decide

/-- C10: a zero-length write at offset 0 passes the capacity check
(0 ≤ 1024), the zero-byte `copy_from_user` always succeeds, the
`*offset == 0` branch resets `g_message_size` to 0 and then adds 0; the call
returns 0 bytes written, new offset 0, the buffer bytes untouched, and the
lock state and open count unchanged. -/
theorem chardev_write_zero_length_at_zero_truncates (s : DevState) (copyOk : Bool) :
    (chardev_write s 0 [] copyOk).1 = .ok 0 ∧
    (chardev_write s 0 [] copyOk).2.1 = 0 ∧
    (chardev_write s 0 [] copyOk).2.2.g_message_size = 0 ∧
    (chardev_write s 0 [] copyOk).2.2.g_message = s.g_message ∧
    (chardev_write s 0 [] copyOk).2.2.locked = s.locked ∧
    (chardev_write s 0 [] copyOk).2.2.g_number_open = s.g_number_open := by
  cases copyOk <;> exact ⟨rfl, rfl, rfl, rfl, rfl, rfl⟩

/-- C5: a write whose `offset + len` exceeds the capacity C = 1024 fails
with `-EFBIG` (`TooLarge`): no bytes are copied and the offset, buffer and
length are all unchanged.  The bounds `0 ≤ offset` and `offset + len < 2^64`
reflect the calls the kernel can issue (`loff_t` positions are nonnegative
and the VFS caps a single transfer far below 2^31 bytes), under which the
unsigned comparison in the source agrees with the mathematical one. -/
theorem chardev_write_too_large (s : DevState) (off : Int) (data : List Nat) (copyOk : Bool)
    (h0 : 0 ≤ off) (h1 : (C : Int) < off + data.length)
    (h2 : off + (data.length : Int) < (W64 : Int)) :
    chardev_write s off data copyOk = (.error .EFBIG, off, s) := by
  have hw : wrap64 ((data.length : Int) + off) > C := by
    unfold wrap64 C W64 at *
    omega
  simp only [chardev_write, if_pos hw]

/-- Witness for `chardev_write_too_large`: the spec's P4 input, a 30-byte
write at offset 1000 against the 1024-byte buffer. -/
theorem chardev_write_too_large_witness :
    chardev_write initDevState 1000 (List.replicate 30 3) true =
      (.error .EFBIG, 1000, initDevState) :=
  chardev_write_too_large initDevState 1000 (List.replicate 30 3) true
    (by decide) (by decide) (by decide)

/-- C6: a write that passes the capacity check but whose `copy_from_user`
fails returns `-EFAULT` (`CopyFault`) and defensively resets
`g_message_size` to 0, whatever the previous length was (the state `s` is
arbitrary); the offset is not advanced. -/
theorem chardev_write_copy_fault (s : DevState) (off : Int) (data : List Nat)
    (h0 : 0 ≤ off) (h1 : off + (data.length : Int) ≤ (C : Int)) (h2 : 0 < data.length) :
    chardev_write s off data false = (.error .EFAULT, off, { s with g_message_size := 0 }) := by
  have hw : ¬ wrap64 ((data.length : Int) + off) > C := by
    unfold wrap64 C W64 at *
    omega
  simp only [chardev_write, if_neg hw]
  simp [h2]

/-- Witness for `chardev_write_copy_fault`: a 3-byte write at offset 2 with
inaccessible user memory, against a device holding a 7-byte message. -/
theorem chardev_write_copy_fault_witness :
    chardev_write ⟨List.replicate 1024 0, 7, true, 1⟩ 2 [1, 2, 3] false =
      (.error .EFAULT, 2, ⟨List.replicate 1024 0, 0, true, 1⟩) :=
  chardev_write_copy_fault ⟨List.replicate 1024 0, 7, true, 1⟩ 2 [1, 2, 3]
    (by decide) (by decide) (by decide)

/-- C7: a read that reaches the copy step (some bytes are available and
requested) and whose `copy_to_user` fails returns `-EFAULT` (`CopyFault`);
`*offset` is not advanced and the device state — buffer, length, lock,
counter — is returned exactly as it was. -/
theorem chardev_read_copy_fault (s : DevState) (len : Nat) (off : Int)
    (h0 : 0 ≤ off) (h1 : off < (s.g_message_size : Int))
    (h2 : s.g_message_size < W63) (h3 : 0 < len) :
    chardev_read s len off false = (.error .EFAULT, off, s) := by
  lift off to Nat using h0 with o
  have hcast : ((s.g_message_size : Int) - (o : Int))
      = ((s.g_message_size - o : Nat) : Int) := by omega
  have hlt : s.g_message_size - o < W64 := by
    unfold W63 W64 at *
    omega
  have e : toSigned64 (wrap64 ((s.g_message_size : Int) - (o : Int)))
      = ((s.g_message_size - o : Nat) : Int) := by
    rw [hcast, wrap64_coe, Nat.mod_eq_of_lt hlt]
    exact toSigned64_small _ (by unfold W63 at *; omega)
  have hpos : 0 < s.g_message_size - o := by omega
  simp only [chardev_read, e]
  rw [if_neg (by exact_mod_cast Nat.pos_iff_ne_zero.mp hpos)]
  rw [if_neg (by simp)]
  rw [wrap64_coe, Nat.mod_eq_of_lt hlt]
  split
  · rw [if_pos (by simp [h3])]
  · rw [if_pos (by simp; omega)]

/-- Witness for `chardev_read_copy_fault`: a 1-byte read at offset 3 of a
5-byte message with inaccessible user memory. -/
theorem chardev_read_copy_fault_witness :
    chardev_read ⟨List.replicate 1024 0, 5, true, 1⟩ 1 3 false =
      (.error .EFAULT, 3, ⟨List.replicate 1024 0, 5, true, 1⟩) :=
  chardev_read_copy_fault ⟨List.replicate 1024 0, 5, true, 1⟩ 1 3
    (by decide) (by decide) (by decide) (by decide)

/-- C8: the exclusivity state machine.  An open while the mutex is held
(`Open`) fails with `-EBUSY` (`AlreadyOpen`) and changes nothing at all —
in particular the lock stays held and `g_number_open` is not incremented.
An open while free (`Closed`) succeeds, takes the lock and increments
`g_number_open`, leaving message state untouched.  A release always returns
the device to `Closed`.  These equations describe every transition of
`chardev_open` / `chardev_release`; failures never change the lock state. -/
theorem chardev_open_exclusivity (s : DevState) :
    (s.locked = true → chardev_open s = (.error .EBUSY, s)) ∧
    (s.locked = false →
      (chardev_open s).1 = .ok () ∧
      (chardev_open s).2.locked = true ∧
      (chardev_open s).2.g_number_open = (s.g_number_open + 1) % W64 ∧
      (chardev_open s).2.g_message = s.g_message ∧
      (chardev_open s).2.g_message_size = s.g_message_size) ∧
    (chardev_release s).1 = .ok () ∧
    (chardev_release s).2.locked = false := by
  refine ⟨fun h => ?_, fun h => ?_, rfl, rfl⟩
  · simp [chardev_open, h]
  · simp [chardev_open, h]

/-- Witness for `chardev_open_exclusivity`: an open of the fresh (closed)
device succeeds and takes the lock; an open of a held device fails with
`-EBUSY` and leaves the state untouched. -/
theorem chardev_open_exclusivity_witness :
    (chardev_open initDevState).2.locked = true ∧
    chardev_open ⟨List.replicate 1024 0, 0, true, 1⟩ =
      (.error .EBUSY, ⟨List.replicate 1024 0, 0, true, 1⟩) :=
  ⟨((chardev_open_exclusivity initDevState).2.1 rfl).2.1,
   (chardev_open_exclusivity ⟨List.replicate 1024 0, 0, true, 1⟩).1 rfl⟩

/-- C9 amended: `g_number_open` is not monotone.  A successful open
increments it, every release decrements it (`g_number_open--`), and read
and write never touch it: it counts currently-open sessions, not the total
number of successful opens since creation. -/
theorem g_number_open_accounting (s : DevState) (len : Nat) (off : Int)
    (data : List Nat) (copyOk : Bool) :
    (s.locked = false → s.g_number_open + 1 < W64 →
      (chardev_open s).2.g_number_open = s.g_number_open + 1) ∧
    (0 < s.g_number_open → s.g_number_open < W64 →
      (chardev_release s).2.g_number_open = s.g_number_open - 1) ∧
    (chardev_read s len off copyOk).2.2.g_number_open = s.g_number_open ∧
    (chardev_write s off data copyOk).2.2.g_number_open = s.g_number_open := by
  refine ⟨fun h h2 => ?_, fun h h2 => ?_, ?_, ?_⟩
  · simp [chardev_open, h, Nat.mod_eq_of_lt h2]
  · simp only [chardev_release]
    unfold W64 at *
    omega
  · simp only [chardev_read]
    split
    · rfl
    · split
      · rfl
      · split <;> split <;> rfl
  · simp only [chardev_write]
    split
    · rfl
    · split
      · rfl
      · rfl

/-- Witness for `g_number_open_accounting`: on the fresh device an open
takes the counter from 0 to 1; on a held single-session device a release
takes it from 1 to 0; a read and a write leave it alone. -/
theorem g_number_open_accounting_witness :
    (chardev_open initDevState).2.g_number_open = 1 ∧
    (chardev_release ⟨List.replicate 1024 0, 5, true, 1⟩).2.g_number_open = 0 ∧
    (chardev_read ⟨List.replicate 1024 0, 5, true, 1⟩ 2 0 true).2.2.g_number_open = 1 :=
  ⟨(g_number_open_accounting initDevState 0 0 [] true).1 rfl (by decide),
   (g_number_open_accounting ⟨List.replicate 1024 0, 5, true, 1⟩ 0 0 [] true).2.1
      (by decide) (by decide),
   (g_number_open_accounting ⟨List.replicate 1024 0, 5, true, 1⟩ 2 0 [] true).2.2.1⟩

/-- C1 amended: under the chained-write discipline — each write is issued
either at offset 0 or at an offset equal to the current stored length, as in
the spec's P6/P7 scenarios — every write (successful or failed) preserves
`g_message_size ≤ C`.  Without that discipline the invariant fails, since a
successful nonzero-offset write adds `len` to the length while the capacity
check bounds only `offset + len` (see
`chardev_write_length_can_exceed_capacity`). -/
theorem chained_chardev_write_preserves_capacity (s : DevState) (off : Int)
    (data : List Nat) (copyOk : Bool)
    (hs : s.g_message_size ≤ C)
    (hchain : off = 0 ∨ off = (s.g_message_size : Int)) :
    (chardev_write s off data copyOk).2.2.g_message_size ≤ C := by
  simp only [chardev_write]
  split
  · exact hs
  · rename_i hcap
    split
    · exact Nat.zero_le C
    · show ((if off = 0 then 0 else s.g_message_size) + data.length) % W64 ≤ C
      rw [not_lt] at hcap
      by_cases hz : off = 0
      · subst hz
        rw [if_pos rfl]
        rw [show ((data.length : Int) + 0) = ((data.length : Nat) : Int) by ring] at hcap
        rw [wrap64_coe] at hcap
        simpa using hcap
      · rcases hchain with h | h
        · exact absurd h hz
        · rw [if_neg hz]
          rw [h] at hcap
          rw [show ((data.length : Int) + (s.g_message_size : Int))
              = ((data.length + s.g_message_size : Nat) : Int) by push_cast; ring] at hcap
          rw [wrap64_coe] at hcap
          rw [Nat.add_comm]
          exact hcap

/-- Witness for `chained_chardev_write_preserves_capacity`: the chained pair
of the spec's P7 — 2 bytes at offset 0, then 2 bytes at offset 2 = current
length — keeps the length at 4 ≤ 1024. -/
theorem chained_chardev_write_preserves_capacity_witness :
    (chardev_write (chardev_write initDevState 0 [65, 66] true).2.2
        2 [67, 68] true).2.2.g_message_size ≤ C :=
  chained_chardev_write_preserves_capacity
    (chardev_write initDevState 0 [65, 66] true).2.2 2 [67, 68] true
    (by decide) (Or.inr (by decide))

/-- C3: a read with `0 ≤ offset ≤ g_message_size` whose copy succeeds
returns exactly `min(g_message_size - offset, len)` bytes taken from
`g_message` starting at `offset`, reports the new offset
`offset + bytesReturned`, and leaves the device state untouched.  At the
exact boundary `offset = g_message_size` the min is 0, so the result is the
empty list with the offset unchanged (end-of-stream, not an error) for
every requested `len`.  The bound `g_message_size < 2^63` keeps the
`ssize_t` reading of the 64-bit difference equal to the mathematical one. -/
theorem chardev_read_in_range (s : DevState) (len : Nat) (off : Int)
    (h0 : 0 ≤ off) (h1 : off ≤ (s.g_message_size : Int)) (h2 : s.g_message_size < W63) :
    chardev_read s len off true =
      (.ok ((s.g_message.drop off.toNat).take (min (s.g_message_size - off.toNat) len)),
        off + ((min (s.g_message_size - off.toNat) len : Nat) : Int), s) := by
  lift off to Nat using h0 with o
  have hto : ((o : Int)).toNat = o := by simp
  have ho : o ≤ s.g_message_size := by exact_mod_cast h1
  have hcast : ((s.g_message_size : Int) - (o : Int))
      = ((s.g_message_size - o : Nat) : Int) := by omega
  have hlt : s.g_message_size - o < W64 := by
    unfold W63 W64 at *
    omega
  have e : toSigned64 (wrap64 ((s.g_message_size : Int) - (o : Int)))
      = ((s.g_message_size - o : Nat) : Int) := by
    rw [hcast, wrap64_coe, Nat.mod_eq_of_lt hlt]
    exact toSigned64_small _ (by unfold W63 at *; omega)
  simp only [chardev_read, e, hto]
  by_cases hz : s.g_message_size - o = 0
  · rw [if_pos (by exact_mod_cast hz)]
    rw [hz]
    simp
  · rw [if_neg (by exact_mod_cast hz)]
    rw [if_neg (fun h => absurd h.2 (Int.natCast_nonneg _).not_lt)]
    rw [wrap64_coe, Nat.mod_eq_of_lt hlt]
    by_cases hgt : s.g_message_size - o > len
    · rw [if_pos hgt]
      rw [if_neg (by simp)]
      rw [Nat.min_eq_right (Nat.le_of_lt hgt)]
    · rw [if_neg hgt]
      rw [if_neg (by simp)]
      rw [Int.toNat_natCast, Nat.min_eq_left (Nat.le_of_not_lt hgt)]

/-- Witness for `chardev_read_in_range`: the spec's P3 — a 10-byte message,
`read(offset=3, maxLength=4)` returns bytes 3..6 and reports offset 7 — and
its P2 boundary — `read(offset=10, maxLength=4)` at the end returns the
empty result with the offset unchanged. -/
theorem chardev_read_in_range_witness :
    chardev_read ⟨[20, 21, 22, 23, 24, 25, 26, 27, 28, 29] ++ List.replicate 1014 0,
        10, true, 1⟩ 4 3 true =
      (.ok [23, 24, 25, 26], 7,
        ⟨[20, 21, 22, 23, 24, 25, 26, 27, 28, 29] ++ List.replicate 1014 0, 10, true, 1⟩) ∧
    chardev_read ⟨[20, 21, 22, 23, 24, 25, 26, 27, 28, 29] ++ List.replicate 1014 0,
        10, true, 1⟩ 4 10 true =
      (.ok [], 10,
        ⟨[20, 21, 22, 23, 24, 25, 26, 27, 28, 29] ++ List.replicate 1014 0, 10, true, 1⟩) :=
  ⟨chardev_read_in_range
      ⟨[20, 21, 22, 23, 24, 25, 26, 27, 28, 29] ++ List.replicate 1014 0, 10, true, 1⟩
      4 3 (by decide) (by decide) (by decide),
   chardev_read_in_range
      ⟨[20, 21, 22, 23, 24, 25, 26, 27, 28, 29] ++ List.replicate 1014 0, 10, true, 1⟩
      4 10 (by decide) (by decide) (by decide)⟩

set_option maxRecDepth 100000 in
/-- C4: a successful write (capacity check passed, copy succeeded) returns
`len = data.length` bytes written with new offset `offset + len`.  If
`offset = 0`, `g_message_size` is reset before accounting, so the length
becomes `len` and the first `len` buffer bytes are exactly the written
data; if `offset ≠ 0`, the length is advanced by `len`.  The closed
conjuncts are the spec's P6 and P7: writing "AB" then "XYZ" at offset 0
leaves content "XYZ" with length 3 (the second offset-0 write discards the
first), and writing "AB" at 0 then "CD" at 2 leaves content "ABCD" with
length 4. -/
theorem chardev_write_success (s : DevState) (off : Int) (data : List Nat)
    (h0 : 0 ≤ off) (h1 : off + (data.length : Int) ≤ (C : Int))
    (h2 : s.g_message_size + data.length < W64) :
    (chardev_write s off data true).1 = .ok data.length ∧
    (chardev_write s off data true).2.1 = off + (data.length : Int) ∧
    (off = 0 → (chardev_write s off data true).2.2.g_message_size = data.length ∧
      (chardev_write s off data true).2.2.g_message.take data.length = data) ∧
    (off ≠ 0 → (chardev_write s off data true).2.2.g_message_size
      = s.g_message_size + data.length) ∧
    (chardev_write (chardev_write initDevState 0 [65, 66] true).2.2
        0 [88, 89, 90] true).2.2.g_message.take 3 = [88, 89, 90] ∧
    (chardev_write (chardev_write initDevState 0 [65, 66] true).2.2
        0 [88, 89, 90] true).2.2.g_message_size = 3 ∧
    (chardev_write (chardev_write initDevState 0 [65, 66] true).2.2
        2 [67, 68] true).2.2.g_message.take 4 = [65, 66, 67, 68] ∧
    (chardev_write (chardev_write initDevState 0 [65, 66] true).2.2
        2 [67, 68] true).2.2.g_message_size = 4 := by
  have hw : ¬ wrap64 ((data.length : Int) + off) > C := by
    unfold wrap64 C W64 at *
    omega
  refine ⟨?_, ?_, fun hz => ⟨?_, ?_⟩, fun hz => ?_, by decide, by decide, by decide, by decide⟩
  · simp [chardev_write, hw]
  · simp [chardev_write, hw]
  · subst hz
    simp only [chardev_write]
    rw [if_neg hw]
    rw [if_neg (by simp)]
    show ((if (0 : Int) = 0 then 0 else s.g_message_size) + data.length) % W64 = data.length
    rw [if_pos rfl, Nat.zero_add]
    have : data.length < W64 := by
      unfold C W64 at *
      omega
    exact Nat.mod_eq_of_lt this
  · subst hz
    simp only [chardev_write]
    rw [if_neg hw]
    rw [if_neg (by simp)]
    show (storeBytes s.g_message (0 : Int).toNat data).take data.length = data
    simp [storeBytes, List.take_left]
  · simp only [chardev_write]
    rw [if_neg hw]
    rw [if_neg (by simp)]
    show ((if off = 0 then 0 else s.g_message_size) + data.length) % W64
      = s.g_message_size + data.length
    rw [if_neg hz]
    exact Nat.mod_eq_of_lt h2

/-- Witness for `chardev_write_success`: writing the two bytes "AB" at
offset 0 into the fresh device succeeds, returns 2 with new offset 2, and
leaves length 2 with content "AB". -/
theorem chardev_write_success_witness :
    (chardev_write initDevState 0 [65, 66] true).1 = .ok 2 ∧
    (chardev_write initDevState 0 [65, 66] true).2.1 = 2 ∧
    (chardev_write initDevState 0 [65, 66] true).2.2.g_message_size = 2 ∧
    (chardev_write initDevState 0 [65, 66] true).2.2.g_message.take 2 = [65, 66] :=
  ⟨(chardev_write_success initDevState 0 [65, 66] (by decide) (by decide) (by decide)).1,
   (chardev_write_success initDevState 0 [65, 66] (by decide) (by decide) (by decide)).2.1,
   ((chardev_write_success initDevState 0 [65, 66] (by decide) (by decide)
      (by decide)).2.2.1 rfl).1,
   ((chardev_write_success initDevState 0 [65, 66] (by decide) (by decide)
      (by decide)).2.2.1 rfl).2⟩
